import Mathlib

/-!
Shallow embedding of the Glitch-Eyes mirror-canvas core: the geometry and
signal utilities (src/utils/math.ts), the procedural scene generator
(src/unnamed/part_000, sceneGenerator), and the stateful tracking/compositing
logic of the MirrorCanvas component (src/unnamed/part_002 and part_003 —
the two components share the same onResults / extractEye / renderScene logic).

JavaScript numbers are modelled by ℚ (exact rational arithmetic); the one
genuinely real-valued operation, Math.sqrt inside distance, is modelled by
Real.sqrt over ℝ.  Math.random() draws are made explicit: a function takes
the draw (a rational in [0,1)) or a stream of draws as an argument.
Stateful refs (history buffer, cooldown, reset flash, head position) become
explicit state threaded through per-tick step functions, and the effect of
releasing (closing) an ImageBitmap is recorded as an output list of the
bitmaps that close() was called on.
-/

/-- types.ts: Point with normalized coordinates (optional z unused by the core). -/
structure Point where
  x : ℚ
  y : ℚ
  z : Option ℚ := none
deriving DecidableEq

/-- part_002 line 14 / part_003 line 15: const BLINK_THRESHOLD = 0.18. -/
def BLINK_THRESHOLD : ℚ := 18/100

/-- part_002 line 15 / part_003 line 16: const MAX_HISTORY = 60. -/
def MAX_HISTORY : ℕ := 60

/-- math.ts lerp(start, end, t) = start * (1 - t) + end * t.
(`end` is a Lean keyword, so the second argument is named fin.) -/
def lerp (start fin t : ℚ) : ℚ := start * (1 - t) + fin * t

/-- math.ts distance: Euclidean distance, Math.sqrt(pow(dx,2) + pow(dy,2)). -/
noncomputable def distance (p1 p2 : Point) : ℝ :=
  Real.sqrt (((p1.x : ℝ) - (p2.x : ℝ))^2 + ((p1.y : ℝ) - (p2.y : ℝ))^2)

/-- math.ts calculateEAR(landmarks, indices): vertical distance between the
landmarks at indices[2], indices[3] divided by horizontal distance between the
landmarks at indices[0], indices[1]; array indexing is modelled by getD. -/
noncomputable def calculateEAR (landmarks : List Point) (indices : List ℕ) : ℝ :=
  let v1 := distance (landmarks.getD (indices.getD 2 0) ⟨0, 0, none⟩)
                     (landmarks.getD (indices.getD 3 0) ⟨0, 0, none⟩)
  let h1 := distance (landmarks.getD (indices.getD 0 0) ⟨0, 0, none⟩)
                     (landmarks.getD (indices.getD 1 0) ⟨0, 0, none⟩)
  v1 / h1

/-- math.ts LEFT_EYE_INDICES = [33, 133, 159, 145] (Left, Right, Top, Bottom). -/
def LEFT_EYE_INDICES : List ℕ := [33, 133, 159, 145]

/-- math.ts RIGHT_EYE_INDICES = [362, 263, 386, 374]. -/
def RIGHT_EYE_INDICES : List ℕ := [362, 263, 386, 374]

/-- math.ts randomRange(min, max) = Math.random() * (max - min) + min,
with the Math.random() draw r made explicit. -/
def randomRange (mn mx r : ℚ) : ℚ := r * (mx - mn) + mn

/-! ## Eye-crop history buffer (part_002 lines 244-256 / part_003 lines 185-197) -/

/-- types.ts EyeData: image (ImageBitmap | null, the bitmap abstracted to a
type β), timestamp, and bounds. -/
structure EyeData (β : Type) where
  image : Option β
  timestamp : ℚ
  bounds : ℚ × ℚ × ℚ × ℚ
deriving DecidableEq

/-- types.ts FrameHistory: one tick's pair of eye snapshots. -/
structure FrameHistory (β : Type) where
  leftEye : EyeData β
  rightEye : EyeData β
deriving DecidableEq

/-- part_002 lines 250-255: historyRef.current.unshift(newFrame); if length >
MAX_HISTORY, pop the last entry and close both of its images (the optional
chaining old?.leftEye.image?.close() only closes a non-null image).
Returns the new buffer together with the list of bitmaps that were closed. -/
def pushFrame {β : Type} (hist : List (FrameHistory β)) (f : FrameHistory β) :
    List (FrameHistory β) × List β :=
  let h := f :: hist
  if h.length > MAX_HISTORY then
    match h.getLast? with
    | some old => (h.dropLast, old.leftEye.image.toList ++ old.rightEye.image.toList)
    | none => (h, [])
  else (h, [])

/-- part_002 lines 316-319 / 360-361: const historyIndex =
Math.min(shape.delayFrames, historyRef.current.length - 1);
if (historyIndex < 0) return; const frameData = historyRef.current[historyIndex];
if (!frameData) return.  JS (length - 1) can be -1, so the index is an ℤ. -/
def getHistoryFrame {α : Type} (hist : List α) (delayFrames : ℕ) : Option α :=
  let historyIndex : ℤ := min (delayFrames : ℤ) ((hist.length : ℤ) - 1)
  if historyIndex < 0 then none
  else hist.get? historyIndex.toNat

/-- part_002 lines 238-259: after the two extractEye promises resolve, the
frame is pushed only when both bitmaps are non-null (if (leftEyeBmp &&
rightEyeBmp)); otherwise history is untouched and no close() happens.
Returns (new history, list of closed bitmaps). -/
def historyUpdate {β : Type} (hist : List (FrameHistory β))
    (leftEyeBmp rightEyeBmp : Option β) (now : ℚ) :
    List (FrameHistory β) × List β :=
  match leftEyeBmp, rightEyeBmp with
  | some l, some r =>
      pushFrame hist ⟨⟨some l, now, (0, 0, 0, 0)⟩, ⟨some r, now, (0, 0, 0, 0)⟩⟩
  | _, _ => (hist, [])

/-! ## Eye-region extraction (part_002 lines 171-204 / part_003 lines 112-145) -/

/-- An axis-aligned box in normalized coordinates. -/
structure Box where
  minX : ℚ
  minY : ℚ
  maxX : ℚ
  maxY : ℚ
deriving DecidableEq

/-- The crop rectangle handed to createImageBitmap, in pixel space. -/
structure CropRect where
  sx : ℚ
  sy : ℚ
  sw : ℚ
  sh : ℚ
deriving DecidableEq

/-- part_002 lines 178-186: fold over the eye's landmark indices starting from
minX = 1, minY = 1, maxX = 0, maxY = 0, updating each bound (the code's
if (p.x < minX) minX = p.x etc. is exactly a min/max fold). -/
def eyeBBox (landmarks : ℕ → Point) (indices : List ℕ) : Box :=
  indices.foldl
    (fun b idx =>
      let p := landmarks idx
      ⟨min b.minX p.x, min b.minY p.y, max b.maxX p.x, max b.maxY p.y⟩)
    ⟨1, 1, 0, 0⟩

/-- part_002 lines 188-194: paddingX = width * 0.6, paddingY = height * 1.0,
then clamp the padded box to [0,1] on both axes. -/
def padClampBox (b : Box) : Box :=
  let paddingX := (b.maxX - b.minX) * (6/10)
  let paddingY := (b.maxY - b.minY) * 1
  ⟨max 0 (b.minX - paddingX), max 0 (b.minY - paddingY),
   min 1 (b.maxX + paddingX), min 1 (b.maxY + paddingY)⟩

/-- part_002 lines 196-199: convert the padded, clamped box to pixel space. -/
def eyeCropRect (landmarks : ℕ → Point) (indices : List ℕ) (width height : ℚ) :
    CropRect :=
  let b := padClampBox (eyeBBox landmarks indices)
  ⟨b.minX * width, b.minY * height, (b.maxX - b.minX) * width, (b.maxY - b.minY) * height⟩

/-- part_002 lines 171-204 extractEye: null exactly when the pixel width or
height is ≤ 0 (if (sw <= 0 || sh <= 0) return null), else the crop rectangle
(standing for the created ImageBitmap). -/
def extractEye (landmarks : ℕ → Point) (indices : List ℕ) (width height : ℚ) :
    Option CropRect :=
  let c := eyeCropRect landmarks indices width height
  if c.sw ≤ 0 ∨ c.sh ≤ 0 then none else some c

/-! ## Blink / cooldown / reset-flash state machine
(part_002 onResults lines 231-266 and renderScene lines 451-484) -/

/-- part_002 lines 451-484: the reset-flash decay performed once per
renderScene call — if (resetFlashRef.current > 0.001) { ...; *= 0.85 }
else { resetFlashRef.current = 0 }. -/
def decayStep (v : ℚ) : ℚ := if v > 1/1000 then v * (17/20) else 0

/-- The mutable refs of the blink/reset logic: blinkCooldownRef (a JS number,
modelled as ℤ), resetFlashRef, and a ghost counter of resetScene calls
(each call regenerates the SceneState). -/
structure TrackState where
  cooldown : ℤ
  flash : ℚ
  resets : ℕ
deriving DecidableEq

/-- Initial state: blinkCooldownRef = 0, resetFlashRef = 0, no resets yet. -/
def initTrack : TrackState := ⟨0, 0, 0⟩

/-- One tracking tick with a detected face, as far as the blink/cooldown/flash
state is concerned (part_002 lines 231-236, 264, and the renderScene decay at
lines 451-484):
if both EARs are below BLINK_THRESHOLD and the cooldown is ≤ 0, set the
cooldown to 25 and call resetScene (which sets resetFlashRef = 1.0);
then decrement the cooldown if it is > 0; then renderScene decays the flash. -/
def blinkTick (s : TrackState) (leftEAR rightEAR : ℚ) : TrackState :=
  let s1 :=
    if leftEAR < BLINK_THRESHOLD ∧ rightEAR < BLINK_THRESHOLD then
      if s.cooldown ≤ 0 then
        { s with cooldown := 25, flash := 1, resets := s.resets + 1 }
      else s
    else s
  let s2 := if s1.cooldown > 0 then { s1 with cooldown := s1.cooldown - 1 } else s1
  { s2 with flash := decayStep s2.flash }

/-- Run a sequence of tracking ticks, feeding one (leftEAR, rightEAR) pair per
tick. -/
def runTicks (s : TrackState) (ears : List (ℚ × ℚ)) : TrackState :=
  ears.foldl (fun st e => blinkTick st e.1 e.2) s

/-! ## Scene generator (part_000, sceneGenerator.ts) -/

/-- One entry of the PALETTES table. -/
structure Palette where
  primary : String
  secondary : String
  bg : String
deriving DecidableEq

/-- part_000 lines 5-14: the 8 fixed palettes. -/
def PALETTES : List Palette :=
  [⟨"#00FF41", "#003B00", "#000000"⟩,
   ⟨"#FF0055", "#550011", "#050002"⟩,
   ⟨"#00F0FF", "#003344", "#000508"⟩,
   ⟨"#FFFFFF", "#444444", "#111111"⟩,
   ⟨"#FFD700", "#332200", "#0A0500"⟩,
   ⟨"#9D00FF", "#220033", "#05000A"⟩,
   ⟨"#FF4400", "#330D00", "#050100"⟩,
   ⟨"#FF00FF", "#440044", "#0A000A"⟩]

/-- types.ts GeometricFrame.  The id is an opaque random token
(generateId() = Math.random().toString(36).substr(2, 9)); we keep the
underlying draw as the token. -/
structure GeometricFrame where
  id : ℚ
  delayFrames : ℤ
  x : ℚ
  y : ℚ
  scale : ℚ
  rotation : ℚ
  rotationSpeed : ℚ
  color : String
  glitchIntensity : ℚ
deriving DecidableEq

/-- types.ts SceneParams. -/
structure SceneParams where
  backgroundColor : String
  shapes : List GeometricFrame
  primaryColor : String
  secondaryColor : String
  glitchMode : String
deriving DecidableEq

/-- part_000 lines 26-39: one shape literal; the Math.random() draws are taken
from the stream r starting at offset o, in the evaluation order of the object
literal: id, delayFrames, x (only when not main), y (only when not main),
scale, color, glitchIntensity.  Returns the shape and the next free offset. -/
def mkShape (primary : String) (isMain : Bool) (r : ℕ → ℚ) (o : ℕ) :
    GeometricFrame × ℕ :=
  if isMain then
    (⟨r o, ⌊randomRange 2 45 (r (o+1))⌋, 1/2, 1/2,
      randomRange (18/10) (25/10) (r (o+2)), 0, 0,
      (if r (o+3) > 3/10 then primary else "#FFFFFF"),
      randomRange (1/10) (9/10) (r (o+4))⟩, o + 5)
  else
    (⟨r o, ⌊randomRange 2 45 (r (o+1))⌋,
      randomRange (5/100) (95/100) (r (o+2)),
      randomRange (5/100) (95/100) (r (o+3)),
      randomRange (3/10) (14/10) (r (o+4)), 0, 0,
      (if r (o+5) > 3/10 then primary else "#FFFFFF"),
      randomRange (1/10) (9/10) (r (o+6))⟩, o + 7)

/-- part_000 lines 24-40: the generation loop — k shapes remaining, current
index i (isMain = (i == 0)), draw offset o.  Returns the shapes and the next
free draw offset. -/
def genShapes (primary : String) (r : ℕ → ℚ) : ℕ → ℕ → ℕ → List GeometricFrame × ℕ
  | 0, _, o => ([], o)
  | k + 1, i, o =>
      let so := mkShape primary (i == 0) r o
      let rest := genShapes primary r k (i + 1) so.2
      (so.1 :: rest.1, rest.2)

/-- part_000 generateNewScene, with the Math.random() stream r explicit:
draw 0 picks the palette (PALETTES[floor(r*8)]), draw 1 the shape count
(floor(randomRange(20, 35))), then the shape loop consumes draws from offset 2,
and the final draw picks glitchMode (Math.random() > 0.5 ? rgb-split : invert). -/
def generateNewScene (r : ℕ → ℚ) : SceneParams :=
  let palette := PALETTES.getD (⌊r 0 * 8⌋).toNat ⟨"", "", ""⟩
  let shapeCount := ⌊randomRange 20 35 (r 1)⌋
  let sh := genShapes palette.primary r shapeCount.toNat 0 2
  ⟨palette.bg, sh.1, palette.primary, palette.secondary,
   if r sh.2 > 1/2 then "rgb-split" else "invert"⟩

/-! ## Theorems -/

/-- C6: per-axis head smoothing lerp(current, target, 0.08) never overshoots —
the new value lies between the old value and the target — target is a fixed
point, and the distance to a constant target contracts by the factor 0.92 each
tick, so repeated application converges monotonically. -/
theorem C6_lerp_smoothing_no_overshoot (c t : ℚ) :
    min c t ≤ lerp c t (8/100) ∧
    lerp c t (8/100) ≤ max c t ∧
    lerp t t (8/100) = t ∧
    |t - lerp c t (8/100)| = (92/100) * |t - c| := by
  refine ⟨?_, ?_, by unfold lerp; ring, ?_⟩
  · rcases le_total c t with h | h
    · rw [min_eq_left h]; unfold lerp; nlinarith
    · rw [min_eq_right h]; unfold lerp; nlinarith
  · rcases le_total c t with h | h
    · rw [max_eq_right h]; unfold lerp; nlinarith
    · rw [max_eq_left h]; unfold lerp; nlinarith
  · have hrw : t - lerp c t (8/100) = (92/100) * (t - c) := by unfold lerp; ring
    rw [hrw, abs_mul, abs_of_pos (by norm_num : (0:ℚ) < 92/100)]

/-- C10: on a tick where exactly one of the two eye extractions yields a
bitmap, the history buffer is unchanged, no bitmap is closed, and in
particular the successfully created bitmap is not closed. -/
theorem C10_partial_extraction_skips_push {β : Type}
    (hist : List (FrameHistory β)) (l r : β) (now : ℚ) :
    historyUpdate hist (some l) none now = (hist, []) ∧
    historyUpdate hist none (some r) now = (hist, []) ∧
    l ∉ (historyUpdate hist (some l) none now).2 ∧
    r ∉ (historyUpdate hist none (some r) now).2 := by
  refine ⟨rfl, rfl, ?_, ?_⟩ <;> simp [historyUpdate]

/-- Helper: a push onto a buffer strictly below capacity just prepends and
closes nothing. -/
theorem pushFrame_small {β : Type} (hist : List (FrameHistory β)) (f : FrameHistory β)
    (hlen : hist.length < MAX_HISTORY) : pushFrame hist f = (f :: hist, []) := by
  unfold pushFrame
  rw [if_neg (by simp; omega)]

/-- Helper: a push onto a buffer at (or above) capacity drops the last entry and
closes its two optional images. -/
theorem pushFrame_full {β : Type} (a f : FrameHistory β) (t : List (FrameHistory β))
    (hlen : MAX_HISTORY ≤ (a :: t).length) :
    pushFrame (a :: t) f = ((f :: a :: t).dropLast,
      ((a :: t).getLast (List.cons_ne_nil a t)).leftEye.image.toList ++
      ((a :: t).getLast (List.cons_ne_nil a t)).rightEye.image.toList) := by
  simp only [pushFrame]
  rw [List.getLast?_cons_cons, List.getLast?_eq_getLast_of_ne_nil (List.cons_ne_nil a t)]
  rw [if_pos (by simp only [List.length_cons] at hlen ⊢; omega)]

/-- C1: from any buffer state satisfying the length-≤-60 invariant, a push
keeps the length ≤ MAX_HISTORY = 60 and inserts the new frame at the front;
below capacity nothing is evicted or closed, and at capacity exactly the
oldest (tail) entry is removed and exactly its two bitmaps are closed. -/
theorem C1_push_bounded_evicts_oldest {β : Type} (hist : List (FrameHistory β))
    (f : FrameHistory β) (hinv : hist.length ≤ MAX_HISTORY) :
    (pushFrame hist f).1.length ≤ MAX_HISTORY ∧
    (pushFrame hist f).1.head? = some f ∧
    (hist.length < MAX_HISTORY → pushFrame hist f = (f :: hist, [])) ∧
    (∀ old l r, hist.length = MAX_HISTORY → hist.getLast? = some old →
      old.leftEye.image = some l → old.rightEye.image = some r →
      pushFrame hist f = ((f :: hist).dropLast, [l, r])) := by
  by_cases hlen : hist.length < MAX_HISTORY
  · rw [pushFrame_small hist f hlen]
    refine ⟨by simpa using hlen, rfl, fun _ => rfl, fun old l r h60 _ _ _ => by omega⟩
  · have h60 : hist.length = MAX_HISTORY := by omega
    cases hist with
    | nil => simp [MAX_HISTORY] at h60
    | cons a t =>
      simp only [List.length_cons] at h60
      rw [pushFrame_full a f t (by simp; omega)]
      refine ⟨?_, ?_, fun hc => by omega, fun old l r _ hlast hl hr => ?_⟩
      · simp only [List.length_dropLast, List.length_cons]
        omega
      · rw [List.dropLast_cons₂]
        rfl
      · rw [List.getLast?_eq_getLast_of_ne_nil (List.cons_ne_nil a t)] at hlast
        have hold : old = (a :: t).getLast (List.cons_ne_nil a t) :=
          (Option.some_inj.mp hlast).symm
        rw [← hold, hl, hr]
        rfl

/-- A concrete history frame over bitmap ids ℕ, for witnesses. -/
def frameW : FrameHistory ℕ :=
  ⟨⟨some 0, 0, (0, 0, 0, 0)⟩, ⟨some 1, 0, (0, 0, 0, 0)⟩⟩

/-- A concrete full (60-entry) history buffer, for witnesses. -/
def histW : List (FrameHistory ℕ) := List.replicate 60 frameW

/-- Witness for C1 at a concrete full buffer of 60 frames. -/
theorem C1_push_bounded_evicts_oldest_witness :
    (pushFrame histW frameW).1.length ≤ MAX_HISTORY ∧
    (pushFrame histW frameW).1.head? = some frameW ∧
    (histW.length < MAX_HISTORY → pushFrame histW frameW = (frameW :: histW, [])) ∧
    (∀ old l r, histW.length = MAX_HISTORY → histW.getLast? = some old →
      old.leftEye.image = some l → old.rightEye.image = some r →
      pushFrame histW frameW = ((frameW :: histW).dropLast, [l, r])) :=
  C1_push_bounded_evicts_oldest histW frameW (by simp [histW, MAX_HISTORY])

/-- C2: the compositor's history lookup returns none on an empty buffer, and on
a buffer of length L ≥ 1 returns exactly the entry at index
min(delayFrames, L - 1) — which always exists (clamped degraded service). -/
theorem C2_history_lookup_clamps {α : Type} (hist : List α) (delayFrames : ℕ) :
    (hist.length = 0 → getHistoryFrame hist delayFrames = none) ∧
    (1 ≤ hist.length →
      getHistoryFrame hist delayFrames = hist.get? (min delayFrames (hist.length - 1)) ∧
      (getHistoryFrame hist delayFrames).isSome = true) := by
  constructor
  · intro h0
    unfold getHistoryFrame
    rw [if_pos (by omega)]
  · intro h1
    unfold getHistoryFrame
    have hge : (0:ℤ) ≤ min (delayFrames : ℤ) ((hist.length : ℤ) - 1) := by omega
    rw [if_neg (not_lt.mpr hge)]
    have htoNat : (min (delayFrames : ℤ) ((hist.length : ℤ) - 1)).toNat
        = min delayFrames (hist.length - 1) := by omega
    rw [htoNat]
    refine ⟨rfl, ?_⟩
    have hlt : min delayFrames (hist.length - 1) < hist.length := by omega
    rw [List.get?_eq_getElem?, List.getElem?_eq_getElem hlt]
    rfl

/-- Witness for C2: a 3-entry buffer with a lookup depth of 5 clamps to the
oldest entry (index 2). -/
theorem C2_history_lookup_clamps_witness :
    (([10, 20, 30] : List ℕ).length = 0 → getHistoryFrame [10, 20, 30] 5 = none) ∧
    (1 ≤ ([10, 20, 30] : List ℕ).length →
      getHistoryFrame [10, 20, 30] 5 =
        ([10, 20, 30] : List ℕ).get? (min 5 (([10, 20, 30] : List ℕ).length - 1)) ∧
      (getHistoryFrame ([10, 20, 30] : List ℕ) 5).isSome = true) :=
  C2_history_lookup_clamps [10, 20, 30] 5

/-- A tracking tick with both eyes closed (both EARs below threshold); any
below-threshold EAR pair produces exactly this transition. -/
def tickBlink (s : TrackState) : TrackState := blinkTick s 0 0

/-- Helper: a tick whose two EARs are below BLINK_THRESHOLD behaves like
tickBlink. -/
theorem blinkTick_below (s : TrackState) {l r : ℚ}
    (hl : l < BLINK_THRESHOLD) (hr : r < BLINK_THRESHOLD) :
    blinkTick s l r = tickBlink s := by
  unfold tickBlink blinkTick
  rw [if_pos ⟨hl, hr⟩,
    if_pos (show (0:ℚ) < BLINK_THRESHOLD ∧ (0:ℚ) < BLINK_THRESHOLD by
      norm_num [BLINK_THRESHOLD])]

/-- Helper: a run of below-threshold ticks is an iterate of tickBlink. -/
theorem runTicks_below (s : TrackState) (ears : List (ℚ × ℚ))
    (hb : ∀ e ∈ ears, e.1 < BLINK_THRESHOLD ∧ e.2 < BLINK_THRESHOLD) :
    runTicks s ears = tickBlink^[ears.length] s := by
  induction ears generalizing s with
  | nil => rfl
  | cons e t ih =>
    have he := hb e (List.mem_cons_self e t)
    simp only [List.length_cons]
    calc runTicks s (e :: t) = runTicks (blinkTick s e.1 e.2) t := rfl
    _ = runTicks (tickBlink s) t := by rw [blinkTick_below s he.1 he.2]
    _ = tickBlink^[t.length] (tickBlink s) :=
        ih (tickBlink s) (fun x hx => hb x (List.mem_cons_of_mem e hx))
    _ = tickBlink^[t.length + 1] s := (Function.iterate_succ_apply tickBlink t.length s).symm

/-- Helper: with a positive cooldown a blink tick only decrements the cooldown
and decays the flash; no reset fires. -/
theorem tickBlink_noblock (s : TrackState) (hc : 0 < s.cooldown) :
    (tickBlink s).cooldown = s.cooldown - 1 ∧ (tickBlink s).resets = s.resets ∧
    (tickBlink s).flash = decayStep s.flash := by
  have h1 : ¬ s.cooldown ≤ 0 := by omega
  simp [tickBlink, blinkTick, BLINK_THRESHOLD, h1, hc]

/-- Helper: with cooldown ≤ 0 a blink tick fires a reset: the cooldown is set
to 25 and immediately decremented to 24, and the flash is set to 1.0 and
immediately decayed to 0.85. -/
theorem tickBlink_trigger (s : TrackState) (hc : s.cooldown ≤ 0) :
    (tickBlink s).cooldown = 24 ∧ (tickBlink s).resets = s.resets + 1 ∧
    (tickBlink s).flash = 17/20 := by
  simp [tickBlink, blinkTick, BLINK_THRESHOLD, hc, decayStep]
  norm_num

/-- Helper: as long as the cooldown covers the remaining ticks, no reset fires
and the cooldown just counts down. -/
theorem iterate_noblock (m : ℕ) (s : TrackState) (hm : (m : ℤ) ≤ s.cooldown) :
    (tickBlink^[m] s).cooldown = s.cooldown - m ∧ (tickBlink^[m] s).resets = s.resets := by
  induction m generalizing s with
  | zero => simp
  | succ n ih =>
    rw [Function.iterate_succ_apply]
    have hc : 0 < s.cooldown := by push_cast at hm; omega
    obtain ⟨h1, h2, _⟩ := tickBlink_noblock s hc
    obtain ⟨h3, h4⟩ := ih (tickBlink s) (by rw [h1]; omega)
    refine ⟨?_, by rw [h4, h2]⟩
    rw [h3, h1]
    push_cast
    omega

/-- Helper: the reset/cooldown trajectory of a below-threshold run started at
cooldown = 0: one reset at tick 1, cooldown = 25 - n after tick n for
n ≤ 25, a second reset at tick 26, still two resets after tick 30. -/
theorem tickBlink_run_facts :
    (∀ n, 1 ≤ n → n ≤ 25 →
      (tickBlink^[n] initTrack).resets = 1 ∧
      (tickBlink^[n] initTrack).cooldown = 25 - n) ∧
    (tickBlink^[26] initTrack).resets = 2 ∧
    (tickBlink^[26] initTrack).cooldown = 24 ∧
    (tickBlink^[30] initTrack).resets = 2 := by
  obtain ⟨ht1, ht2, _⟩ := tickBlink_trigger initTrack (by simp [initTrack])
  have hA : ∀ n, 1 ≤ n → n ≤ 25 →
      (tickBlink^[n] initTrack).resets = 1 ∧
      (tickBlink^[n] initTrack).cooldown = 25 - n := by
    intro n h1 h25
    obtain ⟨m, rfl⟩ : ∃ m, n = m + 1 := ⟨n - 1, by omega⟩
    rw [Function.iterate_succ_apply]
    obtain ⟨hc, hr⟩ := iterate_noblock m (tickBlink initTrack) (by rw [ht1]; omega)
    refine ⟨by rw [hr, ht2, initTrack], ?_⟩
    rw [hc, ht1]
    push_cast
    omega
  obtain ⟨h25r, h25c⟩ := hA 25 (by omega) (by omega)
  have h26 := Function.iterate_succ_apply' tickBlink 25 initTrack
  obtain ⟨h26c, h26r, _⟩ := tickBlink_trigger (tickBlink^[25] initTrack) (by rw [h25c]; norm_num)
  have h26r' : (tickBlink^[26] initTrack).resets = 2 := by
    rw [h26, h26r, h25r]
  have h26c' : (tickBlink^[26] initTrack).cooldown = 24 := by rw [h26, h26c]
  refine ⟨hA, h26r', h26c', ?_⟩
  have h30 : tickBlink^[30] initTrack = tickBlink^[4] (tickBlink^[26] initTrack) :=
    Function.iterate_add_apply tickBlink 4 26 initTrack
  obtain ⟨_, hres⟩ := iterate_noblock 4 (tickBlink^[26] initTrack) (by rw [h26c']; norm_num)
  rw [h30, hres, h26r']

/-- C3 counterexample: over 30 consecutive below-threshold ticks starting at
cooldown = 0, TWO scene resets fire (at tick 1, and again at tick 26 when the
cooldown — decremented already on the trigger tick — has reached 0), refuting
"exactly one scene reset fires across those 30 ticks". -/
theorem C3_thirty_ticks_two_resets_cex :
    (runTicks initTrack (List.replicate 30 ((1:ℚ)/10, (1:ℚ)/10))).resets = 2 ∧
    (runTicks initTrack (List.replicate 30 ((1:ℚ)/10, (1:ℚ)/10))).resets ≠ 1 := by
  have hr : runTicks initTrack (List.replicate 30 ((1:ℚ)/10, (1:ℚ)/10))
      = tickBlink^[30] initTrack := by
    rw [runTicks_below _ _ (fun e he => by
      rw [List.eq_of_mem_replicate he]
      norm_num [BLINK_THRESHOLD])]
    simp
  rw [hr, tickBlink_run_facts.2.2.2]
  omega

/-- C3 amended: for every 30-tick sequence with both EARs below
BLINK_THRESHOLD, starting at cooldown = 0: exactly one reset has fired after
each of ticks 1 through 25 (the cooldown debounces the prolonged closure), a
second reset fires at tick 26 — 25 ticks after the first trigger, because the
cooldown is decremented on the trigger tick itself — and exactly two resets
total have fired after tick 30. -/
theorem C3_debounce_amended (ears : List (ℚ × ℚ)) (hlen : ears.length = 30)
    (hb : ∀ e ∈ ears, e.1 < BLINK_THRESHOLD ∧ e.2 < BLINK_THRESHOLD) :
    (∀ n, 1 ≤ n → n ≤ 25 → (runTicks initTrack (ears.take n)).resets = 1) ∧
    (runTicks initTrack (ears.take 26)).resets = 2 ∧
    (runTicks initTrack ears).resets = 2 := by
  have hred : ∀ n, n ≤ 30 → runTicks initTrack (ears.take n) = tickBlink^[n] initTrack := by
    intro n hn
    rw [runTicks_below _ _ (fun e he => hb e (List.take_subset n ears he))]
    rw [List.length_take, hlen]
    congr 1
    omega
  refine ⟨fun n h1 h25 => ?_, ?_, ?_⟩
  · rw [hred n (by omega)]
    exact (tickBlink_run_facts.1 n h1 h25).1
  · rw [hred 26 (by omega)]
    exact tickBlink_run_facts.2.1
  · have h30 : ears.take 30 = ears := by rw [← hlen]; exact List.take_length ears
    rw [← h30, hred 30 (by omega)]
    exact tickBlink_run_facts.2.2.2

/-- Witness for the amended C3, at the constant sequence EAR = 0.1. -/
theorem C3_debounce_amended_witness :
    (∀ n, 1 ≤ n → n ≤ 25 →
      (runTicks initTrack ((List.replicate 30 ((1:ℚ)/10, (1:ℚ)/10)).take n)).resets = 1) ∧
    (runTicks initTrack ((List.replicate 30 ((1:ℚ)/10, (1:ℚ)/10)).take 26)).resets = 2 ∧
    (runTicks initTrack (List.replicate 30 ((1:ℚ)/10, (1:ℚ)/10))).resets = 2 :=
  C3_debounce_amended (List.replicate 30 ((1:ℚ)/10, (1:ℚ)/10)) (by simp)
    (fun e he => by rw [List.eq_of_mem_replicate he]; norm_num [BLINK_THRESHOLD])

/-- C4 counterexample: feeding EAR = 0.10 on both eyes for 3 ticks from
cooldown = 0 leaves the cooldown at 22, not 23 — the counter is set to 25 and
already decremented on the trigger tick, so after the third tick it is
25 - 3 = 22. -/
theorem C4_cooldown_after_three_ticks_cex :
    (runTicks initTrack (List.replicate 3 ((1:ℚ)/10, (1:ℚ)/10))).cooldown = 22 ∧
    (runTicks initTrack (List.replicate 3 ((1:ℚ)/10, (1:ℚ)/10))).cooldown ≠ 23 := by
  have hr : runTicks initTrack (List.replicate 3 ((1:ℚ)/10, (1:ℚ)/10))
      = tickBlink^[3] initTrack := by
    rw [runTicks_below _ _ (fun e he => by
      rw [List.eq_of_mem_replicate he]
      norm_num [BLINK_THRESHOLD])]
    simp
  have h3 := (tickBlink_run_facts.1 3 (by omega) (by omega)).2
  rw [hr, h3]
  omega

/-- C4 amended: feeding both EARs = 0.10 (< 0.18) for 3 consecutive ticks from
cooldown = 0 generates exactly one new SceneState, leaves the cooldown at 22
(not 23) after the third tick, and leaves ResetFlashIntensity at
1.0 × 0.85³ = (17/20)³ after the third render. -/
theorem C4_three_tick_scenario_amended :
    (runTicks initTrack (List.replicate 3 ((1:ℚ)/10, (1:ℚ)/10))).resets = 1 ∧
    (runTicks initTrack (List.replicate 3 ((1:ℚ)/10, (1:ℚ)/10))).cooldown = 22 ∧
    (runTicks initTrack (List.replicate 3 ((1:ℚ)/10, (1:ℚ)/10))).flash = (17/20)^3 := by
  have hr : runTicks initTrack (List.replicate 3 ((1:ℚ)/10, (1:ℚ)/10))
      = tickBlink^[3] initTrack := by
    rw [runTicks_below _ _ (fun e he => by
      rw [List.eq_of_mem_replicate he]
      norm_num [BLINK_THRESHOLD])]
    simp
  obtain ⟨ht1, ht2, ht3⟩ := tickBlink_trigger initTrack (by simp [initTrack])
  obtain ⟨h2c, h2r, h2f⟩ := tickBlink_noblock (tickBlink initTrack) (by rw [ht1]; norm_num)
  obtain ⟨h3c, h3r, h3f⟩ := tickBlink_noblock (tickBlink (tickBlink initTrack))
    (by rw [h2c, ht1]; norm_num)
  have hs3 : tickBlink^[3] initTrack = tickBlink (tickBlink (tickBlink initTrack)) := rfl
  rw [hr, hs3]
  refine ⟨by rw [h3r, h2r, ht2, initTrack], by rw [h3c, h2c, ht1]; norm_num, ?_⟩
  rw [h3f, h2f, ht3]
  norm_num [decayStep]

/-- Helper: the decay step never produces a negative flash value. -/
theorem decayStep_nonneg (v : ℚ) : 0 ≤ decayStep v := by
  unfold decayStep
  split
  · positivity
  · exact le_refl 0

/-- Helper: on a non-negative flash value the decay step is non-increasing. -/
theorem decayStep_le {v : ℚ} (h : 0 ≤ v) : decayStep v ≤ v := by
  unfold decayStep
  split
  · nlinarith
  · exact h

/-- Helper: at or below the epsilon the decay step clamps to exactly 0. -/
theorem decayStep_eq_zero {v : ℚ} (h : v ≤ 1/1000) : decayStep v = 0 := by
  unfold decayStep
  rw [if_neg (by linarith)]

/-- Helper: iterated decay stays non-negative. -/
theorem decayIter_nonneg (n : ℕ) {v : ℚ} (h : 0 ≤ v) : 0 ≤ decayStep^[n] v := by
  induction n generalizing v with
  | zero => simpa
  | succ m ih =>
    rw [Function.iterate_succ_apply]
    exact ih (decayStep_nonneg v)

/-- Helper: n decay ticks shrink a non-negative flash value at least
geometrically, by (17/20)^n. -/
theorem decayIter_le_pow (n : ℕ) {v : ℚ} (h : 0 ≤ v) :
    decayStep^[n] v ≤ (17/20)^n * v := by
  induction n generalizing v with
  | zero => simp
  | succ m ih =>
    rw [Function.iterate_succ_apply']
    have hw : 0 ≤ decayStep^[m] v := decayIter_nonneg m h
    have hm := ih h
    unfold decayStep
    split
    · have hstep : decayStep^[m] v * (17/20) ≤ (17/20)^m * v * (17/20) := by nlinarith
      calc decayStep^[m] v * (17/20) ≤ (17/20)^m * v * (17/20) := hstep
      _ = (17/20)^(m+1) * v := by ring
    · positivity

/-- Helper: 0.85^43 is already below the 0.001 epsilon. -/
theorem pow43_lt_eps : ((17:ℚ)/20)^43 < 1/1000 := by norm_num

/-- C7: from any starting flash intensity in (0, 1], the per-render-tick decay
(multiply by 0.85 while above 0.001, else clamp to exactly 0) is monotone
non-increasing, reaches exactly 0 within 44 ticks (one past the claim's
≈ ceil(log 0.001 / log 0.85) = 43, since the clamp fires on the tick after the
value first drops below epsilon), and stays 0 forever after. -/
theorem C7_flash_decay_terminates (v0 : ℚ) (h0 : 0 < v0) (h1 : v0 ≤ 1) :
    (∀ n, decayStep^[n+1] v0 ≤ decayStep^[n] v0) ∧
    decayStep^[44] v0 = 0 ∧
    (∀ m, 44 ≤ m → decayStep^[m] v0 = 0) := by
  have hnn : 0 ≤ v0 := le_of_lt h0
  have h44 : decayStep^[44] v0 = 0 := by
    have h43 : decayStep^[43] v0 ≤ (17/20)^43 * v0 := decayIter_le_pow 43 hnn
    have hlt : decayStep^[43] v0 ≤ 1/1000 := by
      have := pow43_lt_eps
      nlinarith [pow_nonneg (by norm_num : (0:ℚ) ≤ 17/20) 43]
    have hsucc : decayStep^[44] v0 = decayStep (decayStep^[43] v0) :=
      Function.iterate_succ_apply' decayStep 43 v0
    rw [hsucc, decayStep_eq_zero hlt]
  refine ⟨fun n => ?_, h44, fun m hm => ?_⟩
  · rw [Function.iterate_succ_apply']
    exact decayStep_le (decayIter_nonneg n hnn)
  · obtain ⟨k, rfl⟩ : ∃ k, m = k + 44 := ⟨m - 44, by omega⟩
    rw [Function.iterate_add_apply, h44]
    exact Function.iterate_fixed (decayStep_eq_zero (by norm_num)) k

/-- Witness for C7 at the post-reset starting intensity 1.0. -/
theorem C7_flash_decay_terminates_witness :
    (∀ n, decayStep^[n+1] (1:ℚ) ≤ decayStep^[n] (1:ℚ)) ∧
    decayStep^[44] (1:ℚ) = 0 ∧
    (∀ m, 44 ≤ m → decayStep^[m] (1:ℚ) = 0) :=
  C7_flash_decay_terminates 1 (by norm_num) (by norm_num)

/-- C9: eye extraction computes the padded, clamped, pixel-converted bounding
box; it yields no crop exactly when the resulting pixel width or height is
≤ 0, and otherwise yields that crop rectangle (with positive pixel size); the
clamped box always lies within [0,1] on both axes; and a tick with a failed
extraction on either side leaves the history buffer untouched (the push is
skipped, nothing is closed, and the loop continues with the old buffer). -/
theorem C9_extraction_none_iff_degenerate (landmarks : ℕ → Point) (indices : List ℕ)
    (width height : ℚ) {β : Type} (hist : List (FrameHistory β))
    (rightEyeBmp : Option β) (now : ℚ) :
    (extractEye landmarks indices width height = none ↔
      (eyeCropRect landmarks indices width height).sw ≤ 0 ∨
      (eyeCropRect landmarks indices width height).sh ≤ 0) ∧
    (∀ c, extractEye landmarks indices width height = some c →
      c = eyeCropRect landmarks indices width height ∧ 0 < c.sw ∧ 0 < c.sh) ∧
    (0 ≤ (padClampBox (eyeBBox landmarks indices)).minX ∧
     (padClampBox (eyeBBox landmarks indices)).maxX ≤ 1 ∧
     0 ≤ (padClampBox (eyeBBox landmarks indices)).minY ∧
     (padClampBox (eyeBBox landmarks indices)).maxY ≤ 1) ∧
    historyUpdate hist none rightEyeBmp now = (hist, []) ∧
    (∀ leftEyeBmp : Option β, historyUpdate hist leftEyeBmp none now = (hist, [])) := by
  refine ⟨?_, ?_, ⟨le_max_left 0 _, min_le_left 1 _, le_max_left 0 _, min_le_left 1 _⟩,
    by cases rightEyeBmp <;> rfl, fun leftEyeBmp => by cases leftEyeBmp <;> rfl⟩
  · unfold extractEye
    by_cases h : (eyeCropRect landmarks indices width height).sw ≤ 0 ∨
        (eyeCropRect landmarks indices width height).sh ≤ 0
    · simp [h]
    · simp [h]
  · intro c hc
    unfold extractEye at hc
    by_cases h : (eyeCropRect landmarks indices width height).sw ≤ 0 ∨
        (eyeCropRect landmarks indices width height).sh ≤ 0
    · rw [if_pos h] at hc
      exact absurd hc (by simp)
    · rw [if_neg h] at hc
      push_neg at h
      exact ⟨(Option.some_inj.mp hc).symm, by rw [← Option.some_inj.mp hc]; exact h⟩

/-- A degenerate landmark field — every landmark at the same point — used to
witness C9: all bounding-box sides collapse, the crop width is 0, extraction
yields none. -/
def collapsedLandmarks : ℕ → Point := fun _ => ⟨1/2, 1/2, none⟩

/-- Witness for C9 at the collapsed landmark field with the real left-eye
index set and a 1280×720 frame. -/
theorem C9_extraction_none_iff_degenerate_witness :
    (extractEye collapsedLandmarks LEFT_EYE_INDICES 1280 720 = none ↔
      (eyeCropRect collapsedLandmarks LEFT_EYE_INDICES 1280 720).sw ≤ 0 ∨
      (eyeCropRect collapsedLandmarks LEFT_EYE_INDICES 1280 720).sh ≤ 0) ∧
    (∀ c, extractEye collapsedLandmarks LEFT_EYE_INDICES 1280 720 = some c →
      c = eyeCropRect collapsedLandmarks LEFT_EYE_INDICES 1280 720 ∧ 0 < c.sw ∧ 0 < c.sh) ∧
    (0 ≤ (padClampBox (eyeBBox collapsedLandmarks LEFT_EYE_INDICES)).minX ∧
     (padClampBox (eyeBBox collapsedLandmarks LEFT_EYE_INDICES)).maxX ≤ 1 ∧
     0 ≤ (padClampBox (eyeBBox collapsedLandmarks LEFT_EYE_INDICES)).minY ∧
     (padClampBox (eyeBBox collapsedLandmarks LEFT_EYE_INDICES)).maxY ≤ 1) ∧
    historyUpdate ([] : List (FrameHistory ℕ)) none (some 7) 0 = ([], []) ∧
    (∀ leftEyeBmp : Option ℕ,
      historyUpdate ([] : List (FrameHistory ℕ)) leftEyeBmp none 0 = ([], [])) :=
  C9_extraction_none_iff_degenerate collapsedLandmarks LEFT_EYE_INDICES 1280 720
    ([] : List (FrameHistory ℕ)) (some 7) 0

/-- Witness for C10 at a concrete buffer and bitmaps. -/
theorem C10_partial_extraction_skips_push_witness :
    historyUpdate [frameW] (some 5) none 0 = ([frameW], []) ∧
    historyUpdate [frameW] none (some 6) 0 = ([frameW], []) ∧
    5 ∉ (historyUpdate [frameW] (some 5) none 0).2 ∧
    6 ∉ (historyUpdate [frameW] none (some 6) 0).2 :=
  C10_partial_extraction_skips_push [frameW] 5 6 0

/-- A degenerate landmark list whose [left, right] landmarks (indices 0, 1)
coincide while top and bottom (indices 2, 3) are distinct. -/
def degenerateLandmarks : List Point :=
  [⟨1/2, 1/2, none⟩, ⟨1/2, 1/2, none⟩, ⟨1/2, 1/4, none⟩, ⟨1/2, 3/4, none⟩]

/-- C8: calculateEAR is exactly the vertical landmark distance divided by the
horizontal landmark distance, with no guard on the denominator; at the
degenerate (reachable) input where the left and right landmarks coincide, the
denominator is 0 while the numerator is 1/2, so the computation divides a
non-zero number by zero. -/
theorem C8_ear_unguarded_division :
    (∀ (landmarks : List Point) (indices : List ℕ),
      calculateEAR landmarks indices =
        distance (landmarks.getD (indices.getD 2 0) ⟨0, 0, none⟩)
                 (landmarks.getD (indices.getD 3 0) ⟨0, 0, none⟩) /
        distance (landmarks.getD (indices.getD 0 0) ⟨0, 0, none⟩)
                 (landmarks.getD (indices.getD 1 0) ⟨0, 0, none⟩)) ∧
    distance (degenerateLandmarks.getD 0 ⟨0, 0, none⟩)
             (degenerateLandmarks.getD 1 ⟨0, 0, none⟩) = 0 ∧
    distance (degenerateLandmarks.getD 2 ⟨0, 0, none⟩)
             (degenerateLandmarks.getD 3 ⟨0, 0, none⟩) = 1/2 ∧
    calculateEAR degenerateLandmarks [0, 1, 2, 3] = (1/2 : ℝ) / 0 := by
  have hden : distance (degenerateLandmarks.getD 0 ⟨0, 0, none⟩)
      (degenerateLandmarks.getD 1 ⟨0, 0, none⟩) = 0 := by
    show distance ⟨1/2, 1/2, none⟩ ⟨1/2, 1/2, none⟩ = 0
    unfold distance
    rw [show ((((1:ℚ)/2 : ℚ) : ℝ) - (((1:ℚ)/2 : ℚ) : ℝ))^2 +
        ((((1:ℚ)/2 : ℚ) : ℝ) - (((1:ℚ)/2 : ℚ) : ℝ))^2 = 0 by push_cast; ring]
    exact Real.sqrt_zero
  have hnum : distance (degenerateLandmarks.getD 2 ⟨0, 0, none⟩)
      (degenerateLandmarks.getD 3 ⟨0, 0, none⟩) = 1/2 := by
    show distance ⟨1/2, 1/4, none⟩ ⟨1/2, 3/4, none⟩ = 1/2
    unfold distance
    have harg : ((((1:ℚ)/2 : ℚ) : ℝ) - (((1:ℚ)/2 : ℚ) : ℝ))^2 +
        ((((1:ℚ)/4 : ℚ) : ℝ) - (((3:ℚ)/4 : ℚ) : ℝ))^2 = (1/2 : ℝ)^2 := by
      push_cast
      ring
    rw [harg, Real.sqrt_sq (by norm_num)]
  refine ⟨fun landmarks indices => rfl, hden, hnum, ?_⟩
  show distance (degenerateLandmarks.getD 2 ⟨0, 0, none⟩)
        (degenerateLandmarks.getD 3 ⟨0, 0, none⟩) /
      distance (degenerateLandmarks.getD 0 ⟨0, 0, none⟩)
        (degenerateLandmarks.getD 1 ⟨0, 0, none⟩) = (1/2 : ℝ) / 0
  rw [hden, hnum]

/-- Helper: randomRange maps a draw in [0,1) into [mn, mx). -/
theorem rr_mem {a b t : ℚ} (hab : a < b) (h0 : 0 ≤ t) (h1 : t < 1) :
    a ≤ randomRange a b t ∧ randomRange a b t < b := by
  unfold randomRange
  constructor
  · nlinarith
  · nlinarith

/-- Helper: floor(randomRange(2, 45)) is an integer in [2, 45) — the
delayFrames draw. -/
theorem floor_rr_2_45 {t : ℚ} (h0 : 0 ≤ t) (h1 : t < 1) :
    2 ≤ ⌊randomRange 2 45 t⌋ ∧ ⌊randomRange 2 45 t⌋ < 45 := by
  obtain ⟨hl, hr⟩ := rr_mem (show (2:ℚ) < 45 by norm_num) h0 h1
  exact ⟨Int.le_floor.mpr (by exact_mod_cast hl), Int.floor_lt.mpr (by exact_mod_cast hr)⟩

/-- Helper: floor(randomRange(20, 35)) is an integer in [20, 35) — the
shape-count draw. -/
theorem floor_rr_20_35 {t : ℚ} (h0 : 0 ≤ t) (h1 : t < 1) :
    20 ≤ ⌊randomRange 20 35 t⌋ ∧ ⌊randomRange 20 35 t⌋ < 35 := by
  obtain ⟨hl, hr⟩ := rr_mem (show (20:ℚ) < 35 by norm_num) h0 h1
  exact ⟨Int.le_floor.mpr (by exact_mod_cast hl), Int.floor_lt.mpr (by exact_mod_cast hr)⟩

/-- Helper: range facts for a single generated shape: delayFrames and
glitchIntensity bounds always; focal position/scale when isMain; the
non-focal position/scale ranges otherwise. -/
theorem mkShape_spec (primary : String) (isMain : Bool) (r : ℕ → ℚ) (o : ℕ)
    (h : ∀ n, 0 ≤ r n ∧ r n < 1) :
    (2 ≤ (mkShape primary isMain r o).1.delayFrames ∧
     (mkShape primary isMain r o).1.delayFrames < 45 ∧
     1/10 ≤ (mkShape primary isMain r o).1.glitchIntensity ∧
     (mkShape primary isMain r o).1.glitchIntensity < 9/10) ∧
    (isMain = true →
      (mkShape primary isMain r o).1.x = 1/2 ∧ (mkShape primary isMain r o).1.y = 1/2 ∧
      18/10 ≤ (mkShape primary isMain r o).1.scale ∧
      (mkShape primary isMain r o).1.scale < 25/10) ∧
    (isMain = false →
      5/100 ≤ (mkShape primary isMain r o).1.x ∧ (mkShape primary isMain r o).1.x < 95/100 ∧
      5/100 ≤ (mkShape primary isMain r o).1.y ∧ (mkShape primary isMain r o).1.y < 95/100 ∧
      3/10 ≤ (mkShape primary isMain r o).1.scale ∧
      (mkShape primary isMain r o).1.scale < 14/10) := by
  cases isMain with
  | true =>
    simp only [mkShape, if_true, Bool.true_eq_false, false_implies, and_true, reduceIte]
    refine ⟨⟨(floor_rr_2_45 (h (o+1)).1 (h (o+1)).2).1,
      (floor_rr_2_45 (h (o+1)).1 (h (o+1)).2).2,
      (rr_mem (by norm_num) (h (o+4)).1 (h (o+4)).2).1,
      (rr_mem (by norm_num) (h (o+4)).1 (h (o+4)).2).2⟩,
      fun _ => ⟨by trivial, by trivial,
        (rr_mem (by norm_num) (h (o+2)).1 (h (o+2)).2).1,
        (rr_mem (by norm_num) (h (o+2)).1 (h (o+2)).2).2⟩⟩
  | false =>
    simp only [mkShape, Bool.false_eq_true, false_implies, true_and, reduceIte]
    refine ⟨⟨(floor_rr_2_45 (h (o+1)).1 (h (o+1)).2).1,
      (floor_rr_2_45 (h (o+1)).1 (h (o+1)).2).2,
      (rr_mem (by norm_num) (h (o+6)).1 (h (o+6)).2).1,
      (rr_mem (by norm_num) (h (o+6)).1 (h (o+6)).2).2⟩,
      fun _ => ⟨(rr_mem (by norm_num) (h (o+2)).1 (h (o+2)).2).1,
        (rr_mem (by norm_num) (h (o+2)).1 (h (o+2)).2).2,
        (rr_mem (by norm_num) (h (o+3)).1 (h (o+3)).2).1,
        (rr_mem (by norm_num) (h (o+3)).1 (h (o+3)).2).2,
        (rr_mem (by norm_num) (h (o+4)).1 (h (o+4)).2).1,
        (rr_mem (by norm_num) (h (o+4)).1 (h (o+4)).2).2⟩⟩

/-- Helper: the generation loop produces exactly the requested number of
shapes. -/
theorem genShapes_length (primary : String) (r : ℕ → ℚ) (k : ℕ) :
    ∀ (i o : ℕ), (genShapes primary r k i o).1.length = k := by
  induction k with
  | zero => intro i o; rfl
  | succ m ih => intro i o; simp [genShapes, ih]

/-- Helper: every generated shape has delayFrames in [2,45) and
glitchIntensity in [0.1, 0.9). -/
theorem genShapes_common (primary : String) (r : ℕ → ℚ)
    (h : ∀ n, 0 ≤ r n ∧ r n < 1) (k : ℕ) :
    ∀ (i o : ℕ), ∀ s ∈ (genShapes primary r k i o).1,
      2 ≤ s.delayFrames ∧ s.delayFrames < 45 ∧
      1/10 ≤ s.glitchIntensity ∧ s.glitchIntensity < 9/10 := by
  induction k with
  | zero => intro i o s hs; simp [genShapes] at hs
  | succ m ih =>
    intro i o s hs
    simp only [genShapes, List.mem_cons] at hs
    rcases hs with rfl | hs
    · exact (mkShape_spec primary (i == 0) r o h).1
    · exact ih (i+1) _ s hs

/-- Helper: shapes generated from a loop index i ≥ 1 are all non-focal and
satisfy the non-focal position/scale ranges. -/
theorem genShapes_nonmain (primary : String) (r : ℕ → ℚ)
    (h : ∀ n, 0 ≤ r n ∧ r n < 1) (k : ℕ) :
    ∀ (i o : ℕ), i ≠ 0 → ∀ s ∈ (genShapes primary r k i o).1,
      5/100 ≤ s.x ∧ s.x < 95/100 ∧ 5/100 ≤ s.y ∧ s.y < 95/100 ∧
      3/10 ≤ s.scale ∧ s.scale < 14/10 := by
  induction k with
  | zero => intro i o _ s hs; simp [genShapes] at hs
  | succ m ih =>
    intro i o hne s hs
    have hb : (i == 0) = false := by simp [hne]
    rw [genShapes] at hs
    simp only [hb, List.mem_cons] at hs
    rcases hs with rfl | hs
    · exact (mkShape_spec primary false r o h).2.2 rfl
    · exact ih (i+1) _ (by omega) s hs

/-- C5: for every draw stream in [0,1), the generated scene has a shape count
in [20,35); the shape at index 0 is focal — position (0.5, 0.5), scale in
[1.8, 2.5) — while every later shape has position components in [0.05, 0.95)
and scale in [0.3, 1.4) (so no later shape can be focal); and every shape has
delayFrames an integer in [2, 45) and glitchIntensity in [0.1, 0.9). -/
theorem C5_scene_generation_ranges (r : ℕ → ℚ) (h : ∀ n, 0 ≤ r n ∧ r n < 1) :
    20 ≤ (generateNewScene r).shapes.length ∧
    (generateNewScene r).shapes.length < 35 ∧
    (∀ s ∈ (generateNewScene r).shapes.take 1,
      s.x = 1/2 ∧ s.y = 1/2 ∧ 18/10 ≤ s.scale ∧ s.scale < 25/10) ∧
    (∀ s ∈ (generateNewScene r).shapes.drop 1,
      5/100 ≤ s.x ∧ s.x < 95/100 ∧ 5/100 ≤ s.y ∧ s.y < 95/100 ∧
      3/10 ≤ s.scale ∧ s.scale < 14/10) ∧
    (∀ s ∈ (generateNewScene r).shapes,
      2 ≤ s.delayFrames ∧ s.delayFrames < 45 ∧
      1/10 ≤ s.glitchIntensity ∧ s.glitchIntensity < 9/10) := by
  have hcount := floor_rr_20_35 (h 1).1 (h 1).2
  have hsh : (generateNewScene r).shapes
      = (genShapes (PALETTES.getD (⌊r 0 * 8⌋).toNat ⟨"", "", ""⟩).primary r
          (⌊randomRange 20 35 (r 1)⌋).toNat 0 2).1 := rfl
  have hlen : (generateNewScene r).shapes.length = (⌊randomRange 20 35 (r 1)⌋).toNat := by
    rw [hsh, genShapes_length]
  obtain ⟨k, hk⟩ : ∃ k, (⌊randomRange 20 35 (r 1)⌋).toNat = k + 1 :=
    ⟨(⌊randomRange 20 35 (r 1)⌋).toNat - 1, by omega⟩
  have hcons : (generateNewScene r).shapes
      = (mkShape (PALETTES.getD (⌊r 0 * 8⌋).toNat ⟨"", "", ""⟩).primary true r 2).1 ::
        (genShapes (PALETTES.getD (⌊r 0 * 8⌋).toNat ⟨"", "", ""⟩).primary r k 1
          (mkShape (PALETTES.getD (⌊r 0 * 8⌋).toNat ⟨"", "", ""⟩).primary true r 2).2).1 := by
    rw [hsh, hk]
    simp [genShapes]
  refine ⟨by omega, by omega, ?_, ?_, ?_⟩
  · intro s hs
    rw [hcons] at hs
    simp only [List.take_succ_cons, List.take_zero, List.mem_singleton] at hs
    subst hs
    exact (mkShape_spec _ true r 2 h).2.1 rfl
  · intro s hs
    rw [hcons] at hs
    simp only [List.drop_succ_cons, List.drop_zero] at hs
    exact genShapes_nonmain _ r h k 1 _ (by omega) s hs
  · intro s hs
    rw [hsh] at hs
    exact genShapes_common _ r h _ 0 2 s hs

/-- Witness for C5 at the constant draw stream 1/2. -/
theorem C5_scene_generation_ranges_witness :
    20 ≤ (generateNewScene (fun _ => (1:ℚ)/2)).shapes.length ∧
    (generateNewScene (fun _ => (1:ℚ)/2)).shapes.length < 35 ∧
    (∀ s ∈ (generateNewScene (fun _ => (1:ℚ)/2)).shapes.take 1,
      s.x = 1/2 ∧ s.y = 1/2 ∧ 18/10 ≤ s.scale ∧ s.scale < 25/10) ∧
    (∀ s ∈ (generateNewScene (fun _ => (1:ℚ)/2)).shapes.drop 1,
      5/100 ≤ s.x ∧ s.x < 95/100 ∧ 5/100 ≤ s.y ∧ s.y < 95/100 ∧
      3/10 ≤ s.scale ∧ s.scale < 14/10) ∧
    (∀ s ∈ (generateNewScene (fun _ => (1:ℚ)/2)).shapes,
      2 ≤ s.delayFrames ∧ s.delayFrames < 45 ∧
      1/10 ≤ s.glitchIntensity ∧ s.glitchIntensity < 9/10) :=
  C5_scene_generation_ranges (fun _ => (1:ℚ)/2) (fun _ => by norm_num)
